import Mathlib

/-!
Verification of the Kuasar `resource_slot` sandboxer
(`src/resource_slot/src/sandbox.rs`) against its specification.

Shallow embedding conventions:
* Rust `HashMap<String, _>` is modelled as an association list with
  first-match lookup; `HashMap::insert` replaces the value of an existing
  key in place (or appends a fresh entry).
* `f64` values are modelled as exact rationals `ℚ`; the only floating
  operations the source performs on extracted values are divisions of
  machine integers, which the model renders as exact rational division.
* Machine integers: `u64`/`u32` fields are `ℕ`, `i64` fields are `ℤ`;
  Rust's truncating cast `x as uN` on an `i64` is `(x % 2^N).toNat`
  (`Int.emod` is non-negative for a positive modulus, matching the
  two's-complement reinterpretation).
* `OffsetDateTime::now_utc()` is modelled by passing the current time to
  `start` as an explicit `ℕ` parameter.
* The asynchronous locking discipline serialises all operations on one
  sandbox (spec §5), so lifecycle calls are modelled as sequential
  state-transforming functions on the registry.
-/

namespace ResourceSlot

/-- First-match lookup in an association list (models `HashMap::get`). -/
def alookup {α : Type} (l : List (String × α)) (k : String) : Option α :=
  match l with
  | [] => none
  | (k', v) :: rest => if k' = k then some v else alookup rest k

/-- `HashMap::insert`: replace the value at an existing key, else append. -/
def ainsert {α : Type} (l : List (String × α)) (k : String) (v : α) :
    List (String × α) :=
  match l with
  | [] => [(k, v)]
  | (k', v') :: rest =>
    if k' = k then (k', v) :: rest else (k', v') :: ainsert rest k v

/-- `HashMap::remove`: drop the entry at a key, if present. -/
def aremove {α : Type} (l : List (String × α)) (k : String) :
    List (String × α) :=
  match l with
  | [] => []
  | (k', v') :: rest =>
    if k' = k then rest else (k', v') :: aremove rest k

/-- Convert a list of decimal digit characters to a natural number. -/
def digitsVal (cs : List Char) : Nat :=
  cs.foldl (fun a c => a * 10 + (c.toNat - 48)) 0

/-- Parse a non-empty all-digit character list, else fail. -/
def digitsToNat (cs : List Char) : Option Nat :=
  if cs ≠ [] ∧ cs.all Char.isDigit then some (digitsVal cs) else none

/-- Rust `str::parse::<u64>`: optional leading `+`, decimal digits,
value must fit in 64 bits. -/
def parseU64 (s : String) : Option Nat :=
  let cs := match s.toList with
    | '+' :: rest => rest
    | cs => cs
  match digitsToNat cs with
  | some v => if v < 2 ^ 64 then some v else none
  | none => none

/-- Rust `str::parse::<u32>`: optional leading `+`, decimal digits,
value must fit in 32 bits. -/
def parseU32 (s : String) : Option Nat :=
  let cs := match s.toList with
    | '+' :: rest => rest
    | cs => cs
  match digitsToNat cs with
  | some v => if v < 2 ^ 32 then some v else none
  | none => none

/-- Rust `str::parse::<f64>` restricted to plain decimal literals
(optional sign, integer digits, optional fractional digits); the result
is the exact rational value of the literal.  Exponent, `inf` and `NaN`
forms, and the rounding of unrepresentable literals, are outside the
inputs any claim touches and are not modelled. -/
def parseF64 (s : String) : Option ℚ :=
  let (neg, cs) := match s.toList with
    | '-' :: rest => (true, rest)
    | '+' :: rest => (false, rest)
    | cs => (false, cs)
  let intPart := cs.takeWhile Char.isDigit
  let rest := cs.dropWhile Char.isDigit
  let mk : ℚ → Option ℚ := fun q => some (if neg then -q else q)
  match rest with
  | [] =>
    if intPart = [] then none
    else mk (digitsVal intPart)
  | '.' :: frac =>
    if frac.all Char.isDigit ∧ (intPart ≠ [] ∨ frac ≠ []) then
      mk ((digitsVal intPart : ℚ) +
        (digitsVal frac : ℚ) / ((10 : ℚ) ^ frac.length))
    else none
  | _ => none

/-- OCI `LinuxCpu` (fields the extractor reads): `shares : Option<u64>`,
`quota : Option<i64>`, `period : Option<u64>`. -/
structure LinuxCpu where
  shares : Option Nat
  quota : Option Int
  period : Option Nat
deriving DecidableEq, Repr

/-- OCI `LinuxMemory` (field the extractor reads): `limit : Option<i64>`. -/
structure LinuxMemory where
  limit : Option Int
deriving DecidableEq, Repr

/-- OCI `LinuxPids`: `limit : i64` (not optional). -/
structure LinuxPids where
  limit : Int
deriving DecidableEq, Repr

/-- OCI `LinuxResources` (substructures the extractor reads). -/
structure LinuxResources where
  cpu : Option LinuxCpu
  memory : Option LinuxMemory
  pids : Option LinuxPids
deriving DecidableEq, Repr

/-- OCI `Linux` section (field the extractor reads). -/
structure LinuxSection where
  resources : Option LinuxResources
deriving DecidableEq, Repr

/-- OCI runtime `Spec` (fields the extractor reads): the annotation map
and the optional Linux section. -/
structure RuntimeSpec where
  annotations : List (String × String)
  linux : Option LinuxSection
deriving DecidableEq, Repr

/-- `containerd_sandbox::data::SandboxData` (field the sandboxer reads):
the optional runtime spec. -/
structure SandboxData where
  spec : Option RuntimeSpec
deriving DecidableEq, Repr

/-- `containerd_sandbox::data::ContainerData` (field the sandboxer
reads): the optional runtime spec. -/
structure ContainerData where
  spec : Option RuntimeSpec
deriving DecidableEq, Repr

/-- `ResourceInfo` from `sandbox.rs`: normalized resource intent, every
field optional. -/
structure ResourceInfo where
  cpu_limit : Option ℚ
  cpu_request : Option ℚ
  memory_limit : Option Nat
  memory_request : Option Nat
  pid_limit : Option Nat
  storage_limit : Option Nat
  network_bandwidth : Option Nat
deriving DecidableEq, Repr

/-- `impl Default for ResourceInfo`: every field `None`. -/
def ResourceInfo.default : ResourceInfo :=
  { cpu_limit := none
    cpu_request := none
    memory_limit := none
    memory_request := none
    pid_limit := none
    storage_limit := none
    network_bandwidth := none }

/-- Lines 93–97: `if let Some(cpu_limit) = annotations.get("resources.limits.cpu")`,
set `cpu_limit` when the value parses as `f64`. -/
def annCpuLimit (info : ResourceInfo) (ann : List (String × String)) :
    ResourceInfo :=
  match alookup ann "resources.limits.cpu" with
  | some s =>
    match parseF64 s with
    | some v => { info with cpu_limit := some v }
    | none => info
  | none => info

/-- Lines 98–102: `annotations.get("resources.requests.cpu")`, set
`cpu_request` when the value parses as `f64`. -/
def annCpuRequest (info : ResourceInfo) (ann : List (String × String)) :
    ResourceInfo :=
  match alookup ann "resources.requests.cpu" with
  | some s =>
    match parseF64 s with
    | some v => { info with cpu_request := some v }
    | none => info
  | none => info

/-- Lines 105–109: `annotations.get("resources.limits.memory")`, set
`memory_limit` when the value parses as `u64`. -/
def annMemoryLimit (info : ResourceInfo) (ann : List (String × String)) :
    ResourceInfo :=
  match alookup ann "resources.limits.memory" with
  | some s =>
    match parseU64 s with
    | some v => { info with memory_limit := some v }
    | none => info
  | none => info

/-- Lines 110–114: `annotations.get("resources.requests.memory")`, set
`memory_request` when the value parses as `u64`. -/
def annMemoryRequest (info : ResourceInfo) (ann : List (String × String)) :
    ResourceInfo :=
  match alookup ann "resources.requests.memory" with
  | some s =>
    match parseU64 s with
    | some v => { info with memory_request := some v }
    | none => info
  | none => info

/-- Lines 117–121: `annotations.get("resources.limits.pid")`, set
`pid_limit` when the value parses as `u32`. -/
def annPidLimit (info : ResourceInfo) (ann : List (String × String)) :
    ResourceInfo :=
  match alookup ann "resources.limits.pid" with
  | some s =>
    match parseU32 s with
    | some v => { info with pid_limit := some v }
    | none => info
  | none => info

/-- The annotation-scanning block of `ResourceInfo::from_sandbox_data`
(lines 90–122): reads five well-known keys from the flat annotation map
in source order, silently ignoring unparsable values. -/
def annotationStep (info : ResourceInfo) (ann : List (String × String)) :
    ResourceInfo :=
  annPidLimit
    (annMemoryRequest (annMemoryLimit (annCpuRequest (annCpuLimit info ann) ann) ann) ann)
    ann

/-- The CPU block of the Linux-resources scan (sandbox lines 129–138,
container lines 167–176): shares give `cpu_request = shares / 1024.0`;
quota and period (both present) give `cpu_limit = quota / period`. -/
def linuxCpuStep (info : ResourceInfo) (res : LinuxResources) : ResourceInfo :=
  match res.cpu with
  | none => info
  | some cpu =>
    let info :=
      match cpu.shares with
      | some shares => { info with cpu_request := some ((shares : ℚ) / 1024) }
      | none => info
    match cpu.quota with
    | some quota =>
      match cpu.period with
      | some period =>
        { info with cpu_limit := some ((quota : ℚ) / (period : ℚ)) }
      | none => info
    | none => info

/-- The memory block of the Linux-resources scan (sandbox lines 141–145,
container lines 179–183): a memory limit (`i64`) is cast `as u64`. -/
def linuxMemoryStep (info : ResourceInfo) (res : LinuxResources) :
    ResourceInfo :=
  match res.memory with
  | none => info
  | some memory =>
    match memory.limit with
    | some limit =>
      { info with memory_limit := some ((limit % (2 ^ 64 : ℤ)).toNat) }
    | none => info

/-- The pids block of the Linux-resources scan (sandbox lines 148–151,
container lines 186–189): a pids section always sets `pid_limit` to its
(non-optional) limit cast `as u32`. -/
def linuxPidsStep (info : ResourceInfo) (res : LinuxResources) :
    ResourceInfo :=
  match res.pids with
  | none => info
  | some pids =>
    { info with pid_limit := some ((pids.limit % (2 ^ 32 : ℤ)).toNat) }

/-- The Linux-resources block shared by `from_sandbox_data`
(lines 125–154) and `from_container_data` (lines 163–192): the CPU,
memory and pids blocks applied in source order when the nested section
is present. -/
def linuxStep (info : ResourceInfo) (spec : RuntimeSpec) : ResourceInfo :=
  match spec.linux with
  | none => info
  | some linux =>
    match linux.resources with
    | none => info
    | some resources =>
      linuxPidsStep (linuxMemoryStep (linuxCpuStep info resources) resources)
        resources

/-- `ResourceInfo::from_sandbox_data` (lines 85–157): start from the
default record, apply the annotation scan, then the Linux-resources
scan (which overwrites any field it sets). -/
def ResourceInfo.from_sandbox_data (data : SandboxData) : ResourceInfo :=
  match data.spec with
  | none => ResourceInfo.default
  | some spec => linuxStep (annotationStep ResourceInfo.default spec.annotations) spec

/-- `ResourceInfo::from_container_data` (lines 160–195): only the
Linux-resources scan, no annotations. -/
def ResourceInfo.from_container_data (data : ContainerData) : ResourceInfo :=
  match data.spec with
  | none => ResourceInfo.default
  | some spec => linuxStep ResourceInfo.default spec

/-- `containerd_sandbox::SandboxStatus`: the tri-state lifecycle enum.
The source only ever constructs `Running 0` and `Stopped 0 0`. -/
inductive SandboxStatus where
  | Created : SandboxStatus
  | Running : Nat → SandboxStatus
  | Stopped : Nat → Nat → SandboxStatus
deriving DecidableEq, Repr

/-- Modelled from the spec: `containerd_sandbox::signal::ExitSignal`, the
one-shot broadcast primitive (spec §5/§6: "a one-shot notification
primitive"; "all current and future waiters observe it after it fires";
"firing it twice must be a no-op").  Its code lives in the external
`containerd-sandbox` crate, not in this repository.  The observable state
is whether the signal has fired. -/
structure ExitSignal where
  fired : Bool
deriving DecidableEq, Repr

/-- `ExitSignal::default()`: not yet fired. -/
def ExitSignal.default : ExitSignal := { fired := false }

/-- Modelled from the spec: `ExitSignal::signal()` fires the one-shot
signal; firing an already-fired signal is a no-op for every waiter. -/
def ExitSignal.signal (s : ExitSignal) : ExitSignal := { s with fired := true }

/-- `ResourceSlotContainer`: the stored container record. -/
structure ResourceSlotContainer where
  data : ContainerData
  resource_info : ResourceInfo
deriving DecidableEq, Repr

/-- `ResourceSlotSandbox`: the per-sandbox mutable record.  The
`started_at : Option<OffsetDateTime>` timestamp is modelled as an
`Option ℕ`. -/
structure ResourceSlotSandbox where
  id : String
  data : SandboxData
  status : SandboxStatus
  exit_signal : ExitSignal
  containers : List (String × ResourceSlotContainer)
  resource_info : ResourceInfo
  started_at : Option Nat
deriving DecidableEq, Repr

/-- `containerd_sandbox::SandboxOption` (field the sandboxer reads). -/
structure SandboxOption where
  sandbox : SandboxData
deriving DecidableEq, Repr

/-- `ResourceSlotSandboxer`: the registry, a map from sandbox id to
sandbox state. -/
structure ResourceSlotSandboxer where
  sandboxes : List (String × ResourceSlotSandbox)
deriving DecidableEq, Repr

/-- `containerd_sandbox::error::Error` (the kinds this file produces). -/
inductive Error where
  | NotFound : String → Error
  | AlreadyExists : String → Error
deriving DecidableEq, Repr

namespace ResourceSlotSandboxer

/-- `Sandboxer::sandbox` (lines 266–274): look the id up under the read
lock; `NotFound` if absent. -/
def sandbox (r : ResourceSlotSandboxer) (id : String) :
    Except Error ResourceSlotSandbox :=
  match alookup r.sandboxes id with
  | some s => .ok s
  | none => .error (.NotFound id)

/-- Write the (already looked-up) sandbox's new state back; models
dropping the per-sandbox mutex after mutating through it. -/
def putSandbox (r : ResourceSlotSandboxer) (id : String)
    (s : ResourceSlotSandbox) : ResourceSlotSandboxer :=
  { sandboxes := ainsert r.sandboxes id s }

/-- `Sandboxer::create` (lines 202–223): derive the resource info, build
a fresh `Created` sandbox and insert it under the write lock.  The insert
replaces any existing entry with the same id; no duplicate check is
performed. -/
def create (r : ResourceSlotSandboxer) (id : String) (s : SandboxOption) :
    Except Error ResourceSlotSandboxer :=
  let resource_info := ResourceInfo.from_sandbox_data s.sandbox
  let sb : ResourceSlotSandbox :=
    { id := id
      data := s.sandbox
      status := .Created
      exit_signal := ExitSignal.default
      containers := []
      resource_info := resource_info
      started_at := none }
  .ok { sandboxes := ainsert r.sandboxes id sb }

/-- `Sandboxer::start` (lines 225–249): look up (`NotFound` if absent),
then unconditionally set status to `Running(0)` and `started_at` to the
current time (`now`, modelling `OffsetDateTime::now_utc()`).  The
resource-simulation log lines have no state effect. -/
def start (r : ResourceSlotSandboxer) (id : String) (now : Nat) :
    Except Error ResourceSlotSandboxer :=
  match r.sandbox id with
  | .error e => .error e
  | .ok s =>
    .ok (r.putSandbox id { s with status := .Running 0, started_at := some now })

/-- `Sandboxer::update` (lines 251–264): look up (`NotFound` if absent),
recompute `resource_info` from the new document and replace the stored
document. -/
def update (r : ResourceSlotSandboxer) (id : String) (data : SandboxData) :
    Except Error ResourceSlotSandboxer :=
  match r.sandbox id with
  | .error e => .error e
  | .ok s =>
    .ok (r.putSandbox id
      { s with resource_info := ResourceInfo.from_sandbox_data data, data := data })

/-- `Sandboxer::stop` (lines 276–290): look up (`NotFound` if absent),
set status to `Stopped(0, 0)` and fire the exit signal; the `force` flag
is ignored. -/
def stop (r : ResourceSlotSandboxer) (id : String) (_force : Bool) :
    Except Error ResourceSlotSandboxer :=
  match r.sandbox id with
  | .error e => .error e
  | .ok s =>
    .ok (r.putSandbox id
      { s with status := .Stopped 0 0, exit_signal := s.exit_signal.signal })

/-- `Sandboxer::delete` (lines 292–299): remove the entry under the
write lock; absence is not an error. -/
def delete (r : ResourceSlotSandboxer) (id : String) :
    Except Error ResourceSlotSandboxer :=
  .ok { sandboxes := aremove r.sandboxes id }

end ResourceSlotSandboxer

/-- Whether a runtime spec has no pids subsection in its Linux-resources
substructure (the section may be missing at any level). -/
def hasNoPidsSection (spec : RuntimeSpec) : Bool :=
  match spec.linux with
  | none => true
  | some l =>
    match l.resources with
    | none => true
    | some res => res.pids = none

/-! ### Concrete fixtures used by counterexamples and witnesses -/

/-- The registry at process start: no sandboxes. -/
def emptyRegistry : ResourceSlotSandboxer := { sandboxes := [] }

/-- A creation option whose sandbox document carries no spec at all. -/
def trivialOption : SandboxOption := { sandbox := { spec := none } }

/-- Unwrap an `ok` registry result (falling back to the empty registry);
every use is accompanied by a proved equation showing the step really
returned `ok`. -/
def okOr (x : Except Error ResourceSlotSandboxer) : ResourceSlotSandboxer :=
  match x with
  | .ok r => r
  | .error _ => emptyRegistry

/-- Registry after `create("s")` on the empty registry. -/
def reg1 : ResourceSlotSandboxer :=
  okOr (emptyRegistry.create "s" trivialOption)

/-- Registry after `create("s")` then `start("s")` at time 1. -/
def reg2 : ResourceSlotSandboxer := okOr (reg1.start "s" 1)

/-- Registry after `create("s")`, `start("s")` at time 1, `start("s")`
at time 2. -/
def reg3 : ResourceSlotSandboxer := okOr (reg2.start "s" 2)

/-- Registry after the duplicate `create("s")` issued against `reg2`. -/
def reg2dup : ResourceSlotSandboxer :=
  okOr (reg2.create "s" trivialOption)

/-- Registry after `stop("s")` on `reg2`. -/
def reg4 : ResourceSlotSandboxer := okOr (reg2.stop "s" false)

/-- Registry after a second `stop("s")`. -/
def reg5 : ResourceSlotSandboxer := okOr (reg4.stop "s" false)

/-- `started_at` of a registry entry, when the entry exists. -/
def startedAtOf (r : ResourceSlotSandboxer) (id : String) :
    Option (Option Nat) :=
  (alookup r.sandboxes id).map ResourceSlotSandbox.started_at

/-- `status` of a registry entry, when the entry exists. -/
def statusOf (r : ResourceSlotSandboxer) (id : String) :
    Option SandboxStatus :=
  (alookup r.sandboxes id).map ResourceSlotSandbox.status

/-- Whether the exit signal of a registry entry has fired. -/
def firedOf (r : ResourceSlotSandboxer) (id : String) : Option Bool :=
  (alookup r.sandboxes id).map fun s => s.exit_signal.fired

/-- Runtime spec whose only resource declaration is the annotation
`resources.requests.pid = "42"` (the key the spec names, which the code
never reads). -/
def reqPidSpec : RuntimeSpec :=
  { annotations := [("resources.requests.pid", "42")], linux := none }

/-- Sandbox document wrapping `reqPidSpec`. -/
def reqPidAnnDoc : SandboxData := { spec := some reqPidSpec }

/-- Runtime spec whose only resource declaration is the annotation
`resources.limits.pid = "42"` (the key the code actually reads). -/
def limPidSpec : RuntimeSpec :=
  { annotations := [("resources.limits.pid", "42")], linux := none }

/-- Sandbox document wrapping `limPidSpec`. -/
def limPidAnnDoc : SandboxData := { spec := some limPidSpec }

/-- CPU section with `quota = 100000` and `period = 50000`. -/
def cpuQuotaPeriod : LinuxCpu :=
  { shares := none, quota := some 100000, period := some 50000 }

/-- Linux resources holding only `cpuQuotaPeriod`. -/
def resQuotaPeriod : LinuxResources :=
  { cpu := some cpuQuotaPeriod, memory := none, pids := none }

/-- Sandbox document with annotation `resources.limits.cpu = "2"` AND
structured `cpu.quota = 100000`, `cpu.period = 50000`. -/
def annAndStructuredCpuDoc : SandboxData :=
  { spec := some { annotations := [("resources.limits.cpu", "2")],
                   linux := some { resources := some resQuotaPeriod } } }

/-- CPU section with a quota but no period. -/
def cpuQuotaOnly : LinuxCpu :=
  { shares := none, quota := some 100000, period := none }

/-- Linux resources holding only `cpuQuotaOnly`. -/
def resQuotaOnly : LinuxResources :=
  { cpu := some cpuQuotaOnly, memory := none, pids := none }

/-- Runtime spec with annotation `resources.limits.cpu = "2"` and a
structured CPU section supplying a quota without a period. -/
def quotaOnlySpec : RuntimeSpec :=
  { annotations := [("resources.limits.cpu", "2")],
    linux := some { resources := some resQuotaOnly } }

/-- Sandbox document wrapping `quotaOnlySpec`. -/
def quotaOnlyDoc : SandboxData := { spec := some quotaOnlySpec }

/-- Container document wrapping `quotaOnlySpec`. -/
def quotaOnlyContainerDoc : ContainerData := { spec := some quotaOnlySpec }

/-- Runtime spec whose five scanned annotation values are all
unparsable, with no Linux section. -/
def malformedSpec : RuntimeSpec :=
  { annotations := [("resources.limits.cpu", "abc"),
                    ("resources.requests.cpu", ""),
                    ("resources.limits.memory", "12x"),
                    ("resources.requests.memory", "-3"),
                    ("resources.limits.pid", "4294967296")],
    linux := none }

/-- Sandbox document wrapping `malformedSpec`. -/
def malformedDoc : SandboxData := { spec := some malformedSpec }

/-- Linux resources holding only a pids section with limit `-1`. -/
def resPidsNeg : LinuxResources :=
  { cpu := none, memory := none, pids := some { limit := -1 } }

/-- Sandbox document whose pids limit is `-1`. -/
def pidsNegDoc : SandboxData :=
  { spec := some { annotations := [],
                   linux := some { resources := some resPidsNeg } } }

/-- Linux resources holding only a pids section with limit `0`. -/
def resPidsZero : LinuxResources :=
  { cpu := none, memory := none, pids := some { limit := 0 } }

/-- Container document whose pids limit is `0`. -/
def pidsZeroContainerDoc : ContainerData :=
  { spec := some { annotations := [],
                   linux := some { resources := some resPidsZero } } }

/-! ### Helper lemmas on association lists -/

theorem alookup_ainsert_self {α : Type} (l : List (String × α)) (k : String)
    (v : α) : alookup (ainsert l k v) k = some v := by
  induction l with
  | nil => simp [ainsert, alookup]
  | cons hd tl ih =>
    obtain ⟨k', v'⟩ := hd
    by_cases h : k' = k <;> simp [ainsert, alookup, h, ih]

theorem alookup_ainsert_ne {α : Type} (l : List (String × α)) (k k' : String)
    (v : α) (h : k' ≠ k) : alookup (ainsert l k v) k' = alookup l k' := by
  have hne : k ≠ k' := fun e => h e.symm
  induction l with
  | nil => simp [ainsert, alookup, hne]
  | cons hd tl ih =>
    obtain ⟨k'', v''⟩ := hd
    by_cases hk : k'' = k
    · subst hk
      simp [ainsert, alookup, hne]
    · simp only [ainsert, if_neg hk, alookup]
      by_cases hk' : k'' = k' <;> simp [hk', ih]

/-! ### Field-projection lemmas for the extraction steps

Each annotation / Linux-resources step writes exactly one field of the
record, so every other field passes through unchanged. -/

theorem annCpuLimit_pid_limit (info : ResourceInfo)
    (ann : List (String × String)) :
    (annCpuLimit info ann).pid_limit = info.pid_limit := by
  unfold annCpuLimit
  split <;> first | rfl | (split <;> rfl)

theorem annCpuRequest_pid_limit (info : ResourceInfo)
    (ann : List (String × String)) :
    (annCpuRequest info ann).pid_limit = info.pid_limit := by
  unfold annCpuRequest
  split <;> first | rfl | (split <;> rfl)

theorem annMemoryLimit_pid_limit (info : ResourceInfo)
    (ann : List (String × String)) :
    (annMemoryLimit info ann).pid_limit = info.pid_limit := by
  unfold annMemoryLimit
  split <;> first | rfl | (split <;> rfl)

theorem annMemoryRequest_pid_limit (info : ResourceInfo)
    (ann : List (String × String)) :
    (annMemoryRequest info ann).pid_limit = info.pid_limit := by
  unfold annMemoryRequest
  split <;> first | rfl | (split <;> rfl)

theorem annPidLimit_set (info : ResourceInfo) (ann : List (String × String))
    (s : String) (v : Nat) (hs : alookup ann "resources.limits.pid" = some s)
    (hv : parseU32 s = some v) :
    (annPidLimit info ann).pid_limit = some v := by
  unfold annPidLimit
  simp [hs, hv]

theorem annotationStep_pid_limit_set (info : ResourceInfo)
    (ann : List (String × String)) (s : String) (v : Nat)
    (hs : alookup ann "resources.limits.pid" = some s)
    (hv : parseU32 s = some v) :
    (annotationStep info ann).pid_limit = some v := by
  unfold annotationStep
  exact annPidLimit_set _ ann s v hs hv

theorem annCpuLimit_absent (info : ResourceInfo)
    (ann : List (String × String))
    (h : alookup ann "resources.limits.cpu" = none) :
    annCpuLimit info ann = info := by
  unfold annCpuLimit
  simp [h]

theorem annCpuRequest_absent (info : ResourceInfo)
    (ann : List (String × String))
    (h : alookup ann "resources.requests.cpu" = none) :
    annCpuRequest info ann = info := by
  unfold annCpuRequest
  simp [h]

theorem annMemoryLimit_absent (info : ResourceInfo)
    (ann : List (String × String))
    (h : alookup ann "resources.limits.memory" = none) :
    annMemoryLimit info ann = info := by
  unfold annMemoryLimit
  simp [h]

theorem annMemoryRequest_absent (info : ResourceInfo)
    (ann : List (String × String))
    (h : alookup ann "resources.requests.memory" = none) :
    annMemoryRequest info ann = info := by
  unfold annMemoryRequest
  simp [h]

theorem annPidLimit_absent (info : ResourceInfo)
    (ann : List (String × String))
    (h : alookup ann "resources.limits.pid" = none) :
    annPidLimit info ann = info := by
  unfold annPidLimit
  simp [h]

theorem annotationStep_absent (info : ResourceInfo)
    (ann : List (String × String))
    (h1 : alookup ann "resources.limits.cpu" = none)
    (h2 : alookup ann "resources.requests.cpu" = none)
    (h3 : alookup ann "resources.limits.memory" = none)
    (h4 : alookup ann "resources.requests.memory" = none)
    (h5 : alookup ann "resources.limits.pid" = none) :
    annotationStep info ann = info := by
  unfold annotationStep
  rw [annCpuLimit_absent info ann h1, annCpuRequest_absent info ann h2,
    annMemoryLimit_absent info ann h3, annMemoryRequest_absent info ann h4,
    annPidLimit_absent info ann h5]

theorem linuxCpuStep_cpu_limit_both (info : ResourceInfo)
    (res : LinuxResources) (cpu : LinuxCpu) (q : Int) (p : Nat)
    (hcpu : res.cpu = some cpu) (hq : cpu.quota = some q)
    (hp : cpu.period = some p) :
    (linuxCpuStep info res).cpu_limit = some ((q : ℚ) / (p : ℚ)) := by
  unfold linuxCpuStep
  cases hsh : cpu.shares <;> simp [hcpu, hsh, hq, hp]

theorem linuxCpuStep_cpu_limit_missing (info : ResourceInfo)
    (res : LinuxResources)
    (h : ∀ cpu, res.cpu = some cpu → cpu.quota = none ∨ cpu.period = none) :
    (linuxCpuStep info res).cpu_limit = info.cpu_limit := by
  unfold linuxCpuStep
  cases hcpu : res.cpu with
  | none => rfl
  | some cpu =>
    rcases h cpu hcpu with hm | hm <;>
      cases hsh : cpu.shares <;>
      cases hq : cpu.quota <;>
      cases hp : cpu.period <;>
      simp_all


theorem linuxCpuStep_pid_limit (info : ResourceInfo) (res : LinuxResources) :
    (linuxCpuStep info res).pid_limit = info.pid_limit := by
  unfold linuxCpuStep
  cases hcpu : res.cpu with
  | none => rfl
  | some cpu =>
    cases hsh : cpu.shares <;> cases hq : cpu.quota <;> cases hp : cpu.period <;>
      simp_all

theorem linuxMemoryStep_cpu_limit (info : ResourceInfo)
    (res : LinuxResources) :
    (linuxMemoryStep info res).cpu_limit = info.cpu_limit := by
  unfold linuxMemoryStep
  cases hm : res.memory with
  | none => rfl
  | some mem => cases hl : mem.limit <;> simp_all

theorem linuxMemoryStep_pid_limit (info : ResourceInfo)
    (res : LinuxResources) :
    (linuxMemoryStep info res).pid_limit = info.pid_limit := by
  unfold linuxMemoryStep
  cases hm : res.memory with
  | none => rfl
  | some mem => cases hl : mem.limit <;> simp_all

theorem linuxPidsStep_cpu_limit (info : ResourceInfo)
    (res : LinuxResources) :
    (linuxPidsStep info res).cpu_limit = info.cpu_limit := by
  unfold linuxPidsStep
  cases res.pids <;> rfl


theorem linuxPidsStep_pid_limit_set (info : ResourceInfo)
    (res : LinuxResources) (pd : LinuxPids) (hpd : res.pids = some pd) :
    (linuxPidsStep info res).pid_limit =
      some ((pd.limit % (2 ^ 32 : ℤ)).toNat) := by
  unfold linuxPidsStep
  simp [hpd]

theorem linuxPidsStep_pid_limit_none (info : ResourceInfo)
    (res : LinuxResources) (hpd : res.pids = none) :
    (linuxPidsStep info res).pid_limit = info.pid_limit := by
  unfold linuxPidsStep
  simp [hpd]

theorem linuxStep_cpu_limit_both (info : ResourceInfo) (spec : RuntimeSpec)
    (l : LinuxSection) (res : LinuxResources) (cpu : LinuxCpu)
    (q : Int) (p : Nat)
    (hl : spec.linux = some l) (hres : l.resources = some res)
    (hcpu : res.cpu = some cpu) (hq : cpu.quota = some q)
    (hp : cpu.period = some p) :
    (linuxStep info spec).cpu_limit = some ((q : ℚ) / (p : ℚ)) := by
  unfold linuxStep
  simp [hl, hres, linuxPidsStep_cpu_limit, linuxMemoryStep_cpu_limit,
    linuxCpuStep_cpu_limit_both info res cpu q p hcpu hq hp]

theorem linuxStep_cpu_limit_missing (info : ResourceInfo)
    (spec : RuntimeSpec)
    (h : ∀ l, spec.linux = some l →
      ∀ res, l.resources = some res →
        ∀ cpu, res.cpu = some cpu → cpu.quota = none ∨ cpu.period = none) :
    (linuxStep info spec).cpu_limit = info.cpu_limit := by
  unfold linuxStep
  cases hl : spec.linux with
  | none => rfl
  | some l =>
    cases hres : l.resources with
    | none => simp [hres]
    | some res =>
      simp [hres, linuxPidsStep_cpu_limit, linuxMemoryStep_cpu_limit,
        linuxCpuStep_cpu_limit_missing info res (h l hl res hres)]

theorem linuxStep_pid_limit_pids (info : ResourceInfo) (spec : RuntimeSpec)
    (l : LinuxSection) (res : LinuxResources) (pd : LinuxPids)
    (hl : spec.linux = some l) (hres : l.resources = some res)
    (hpd : res.pids = some pd) :
    (linuxStep info spec).pid_limit =
      some ((pd.limit % (2 ^ 32 : ℤ)).toNat) := by
  unfold linuxStep
  simp [hl, hres, linuxPidsStep_pid_limit_set _ res pd hpd]

theorem linuxStep_pid_limit_noPids (info : ResourceInfo) (spec : RuntimeSpec)
    (h : hasNoPidsSection spec = true) :
    (linuxStep info spec).pid_limit = info.pid_limit := by
  unfold linuxStep
  unfold hasNoPidsSection at h
  cases hl : spec.linux with
  | none => rfl
  | some l =>
    rw [hl] at h
    cases hres : l.resources with
    | none => simp [hres]
    | some res =>
      simp [hres] at h
      simp [hres, linuxPidsStep_pid_limit_none _ res h,
        linuxMemoryStep_pid_limit, linuxCpuStep_pid_limit]

/-! ### Unfolding lemmas for the extractor and the registry operations -/

theorem from_sandbox_data_some (d : SandboxData) (spec : RuntimeSpec)
    (hd : d.spec = some spec) :
    ResourceInfo.from_sandbox_data d =
      linuxStep (annotationStep ResourceInfo.default spec.annotations) spec := by
  unfold ResourceInfo.from_sandbox_data
  rw [hd]

theorem from_container_data_some (c : ContainerData) (spec : RuntimeSpec)
    (hc : c.spec = some spec) :
    ResourceInfo.from_container_data c = linuxStep ResourceInfo.default spec := by
  unfold ResourceInfo.from_container_data
  rw [hc]

theorem sandbox_ok (r : ResourceSlotSandboxer) (id : String)
    (s : ResourceSlotSandbox) (h : alookup r.sandboxes id = some s) :
    r.sandbox id = .ok s := by
  unfold ResourceSlotSandboxer.sandbox
  rw [h]

theorem start_ok (r : ResourceSlotSandboxer) (id : String)
    (s : ResourceSlotSandbox) (now : Nat)
    (h : alookup r.sandboxes id = some s) :
    r.start id now =
      .ok (r.putSandbox id
        { s with status := .Running 0, started_at := some now }) := by
  unfold ResourceSlotSandboxer.start
  rw [sandbox_ok r id s h]

theorem stop_ok (r : ResourceSlotSandboxer) (id : String)
    (s : ResourceSlotSandbox) (force : Bool)
    (h : alookup r.sandboxes id = some s) :
    r.stop id force =
      .ok (r.putSandbox id
        { s with status := .Stopped 0 0,
                 exit_signal := s.exit_signal.signal }) := by
  unfold ResourceSlotSandboxer.stop
  rw [sandbox_ok r id s h]

theorem update_ok (r : ResourceSlotSandboxer) (id : String)
    (s : ResourceSlotSandbox) (data : SandboxData)
    (h : alookup r.sandboxes id = some s) :
    r.update id data =
      .ok (r.putSandbox id
        { s with resource_info := ResourceInfo.from_sandbox_data data,
                 data := data }) := by
  unfold ResourceSlotSandboxer.update
  rw [sandbox_ok r id s h]

theorem alookup_putSandbox_self (r : ResourceSlotSandboxer) (id : String)
    (s : ResourceSlotSandbox) :
    alookup (r.putSandbox id s).sandboxes id = some s :=
  alookup_ainsert_self r.sandboxes id s

theorem alookup_putSandbox_ne (r : ResourceSlotSandboxer) (id idq : String)
    (s : ResourceSlotSandbox) (h : idq ≠ id) :
    alookup (r.putSandbox id s).sandboxes idq = alookup r.sandboxes idq :=
  alookup_ainsert_ne r.sandboxes id idq s h

/-! ### Claim theorems -/

/-- C3 counterexample: a sandbox document whose annotation map binds
`resources.requests.pid` to `"42"` (which parses as a `u32`) and which
has no pids section yields `pid_limit = none`, not `some 42`: the code
reads the key `resources.limits.pid`, not `resources.requests.pid`. -/
theorem C3_counterexample :
    alookup reqPidSpec.annotations "resources.requests.pid" = some "42" ∧
    hasNoPidsSection reqPidSpec = true ∧
    parseU32 "42" = some 42 ∧
    (ResourceInfo.from_sandbox_data reqPidAnnDoc).pid_limit ≠ some 42 := by
  refine ⟨rfl, rfl, by decide, ?_⟩
  decide

/-- C3 (amended): the sandbox annotation scan covers exactly the five
keys `resources.limits.cpu`, `resources.requests.cpu`,
`resources.limits.memory`, `resources.requests.memory`,
`resources.limits.pid`.  A document whose annotation map binds
`resources.limits.pid` to a string parsing as a `u32`, with no pids
section, yields `pid_limit` set to that parsed value; and an annotation
map binding none of the five keys leaves the record untouched by the
annotation scan. -/
theorem C3_pid_annotation_key_is_limits_pid :
    (∀ (d : SandboxData) (spec : RuntimeSpec) (s : String) (v : Nat),
      d.spec = some spec →
      alookup spec.annotations "resources.limits.pid" = some s →
      parseU32 s = some v →
      hasNoPidsSection spec = true →
      (ResourceInfo.from_sandbox_data d).pid_limit = some v) ∧
    (∀ (info : ResourceInfo) (ann : List (String × String)),
      alookup ann "resources.limits.cpu" = none →
      alookup ann "resources.requests.cpu" = none →
      alookup ann "resources.limits.memory" = none →
      alookup ann "resources.requests.memory" = none →
      alookup ann "resources.limits.pid" = none →
      annotationStep info ann = info) := by
  constructor
  · intro d spec s v hd hs hv hnp
    rw [from_sandbox_data_some d spec hd,
      linuxStep_pid_limit_noPids _ spec hnp,
      annotationStep_pid_limit_set _ spec.annotations s v hs hv]
  · intro info ann h1 h2 h3 h4 h5
    exact annotationStep_absent info ann h1 h2 h3 h4 h5

/-- C3 witness: the amended claim at `limPidAnnDoc` (annotation
`resources.limits.pid = "42"`, no Linux section) and at the annotation
map of `reqPidSpec` (whose only key is outside the scanned five). -/
theorem C3_witness :
    (ResourceInfo.from_sandbox_data limPidAnnDoc).pid_limit = some 42 ∧
    annotationStep ResourceInfo.default reqPidSpec.annotations =
      ResourceInfo.default :=
  ⟨C3_pid_annotation_key_is_limits_pid.1 limPidAnnDoc limPidSpec "42" 42
      rfl rfl (by decide) rfl,
    C3_pid_annotation_key_is_limits_pid.2 ResourceInfo.default
      reqPidSpec.annotations (by decide) (by decide) (by decide) (by decide)
      (by decide)⟩

/-- C4: when a sandbox document carries both a parseable
`resources.limits.cpu` annotation and a structured CPU section with both
quota and period, the extracted `cpu_limit` is `quota / period`, taken
from the structured section regardless of the annotation value. -/
theorem C4_structured_cpu_precedence
    (d : SandboxData) (spec : RuntimeSpec) (a : String) (av : ℚ)
    (l : LinuxSection) (res : LinuxResources) (cpu : LinuxCpu)
    (q : Int) (p : Nat)
    (hd : d.spec = some spec)
    (ha : alookup spec.annotations "resources.limits.cpu" = some a)
    (hav : parseF64 a = some av)
    (hl : spec.linux = some l) (hres : l.resources = some res)
    (hcpu : res.cpu = some cpu) (hq : cpu.quota = some q)
    (hp : cpu.period = some p) :
    (ResourceInfo.from_sandbox_data d).cpu_limit =
      some ((q : ℚ) / (p : ℚ)) := by
  rw [from_sandbox_data_some d spec hd]
  exact linuxStep_cpu_limit_both _ spec l res cpu q p hl hres hcpu hq hp

/-- C4 witness: annotation `resources.limits.cpu = "2"` together with
`cpu.quota = 100000`, `cpu.period = 50000` yields
`cpu_limit = 100000 / 50000 = 2`. -/
theorem C4_witness :
    (ResourceInfo.from_sandbox_data annAndStructuredCpuDoc).cpu_limit =
      some ((100000 : ℚ) / (50000 : ℚ)) ∧
    ((100000 : ℚ) / (50000 : ℚ)) = 2 :=
  ⟨C4_structured_cpu_precedence annAndStructuredCpuDoc _ "2" 2
      _ _ cpuQuotaPeriod 100000 50000 rfl rfl (by decide) rfl rfl rfl rfl rfl,
    by norm_num⟩

/-- C6: when the Linux-resources CPU section supplies a quota without a
period or a period without a quota, `cpu_limit` is exactly what the
annotation step produced for a sandbox document, and unset for a
container document (which has no annotation step). -/
theorem C6_quota_period_both_required :
    (∀ (d : SandboxData) (spec : RuntimeSpec) (l : LinuxSection)
        (res : LinuxResources) (cpu : LinuxCpu),
      d.spec = some spec → spec.linux = some l → l.resources = some res →
      res.cpu = some cpu →
      ((cpu.quota ≠ none ∧ cpu.period = none) ∨
        (cpu.quota = none ∧ cpu.period ≠ none)) →
      (ResourceInfo.from_sandbox_data d).cpu_limit =
        (annotationStep ResourceInfo.default spec.annotations).cpu_limit) ∧
    (∀ (c : ContainerData) (spec : RuntimeSpec) (l : LinuxSection)
        (res : LinuxResources) (cpu : LinuxCpu),
      c.spec = some spec → spec.linux = some l → l.resources = some res →
      res.cpu = some cpu →
      ((cpu.quota ≠ none ∧ cpu.period = none) ∨
        (cpu.quota = none ∧ cpu.period ≠ none)) →
      (ResourceInfo.from_container_data c).cpu_limit = none) := by
  have hmiss : ∀ (res : LinuxResources) (cpu : LinuxCpu),
      res.cpu = some cpu →
      ((cpu.quota ≠ none ∧ cpu.period = none) ∨
        (cpu.quota = none ∧ cpu.period ≠ none)) →
      ∀ cpu2, res.cpu = some cpu2 → cpu2.quota = none ∨ cpu2.period = none := by
    intro res cpu hcpu hone cpu2 hcpu2
    rw [hcpu] at hcpu2
    cases Option.some.inj hcpu2
    rcases hone with ⟨_, hpn⟩ | ⟨hqn, _⟩
    · exact Or.inr hpn
    · exact Or.inl hqn
  constructor
  · intro d spec l res cpu hd hl hres hcpu hone
    rw [from_sandbox_data_some d spec hd]
    apply linuxStep_cpu_limit_missing
    intro l2 hl2 res2 hres2
    rw [hl] at hl2
    cases Option.some.inj hl2
    rw [hres] at hres2
    cases Option.some.inj hres2
    exact hmiss res cpu hcpu hone
  · intro c spec l res cpu hc hl hres hcpu hone
    rw [from_container_data_some c spec hc]
    have := linuxStep_cpu_limit_missing ResourceInfo.default spec ?_
    · exact this
    · intro l2 hl2 res2 hres2
      rw [hl] at hl2
      cases Option.some.inj hl2
      rw [hres] at hres2
      cases Option.some.inj hres2
      exact hmiss res cpu hcpu hone

/-- C6 witness: a document with annotation `resources.limits.cpu = "2"`
and a structured quota of 100000 but no period keeps
`cpu_limit = some 2` from the annotation step; the same spec as a
container document leaves `cpu_limit` unset. -/
theorem C6_witness :
    (ResourceInfo.from_sandbox_data quotaOnlyDoc).cpu_limit =
      (annotationStep ResourceInfo.default quotaOnlySpec.annotations).cpu_limit ∧
    (annotationStep ResourceInfo.default quotaOnlySpec.annotations).cpu_limit =
      some 2 ∧
    (ResourceInfo.from_container_data quotaOnlyContainerDoc).cpu_limit = none :=
  ⟨C6_quota_period_both_required.1 quotaOnlyDoc quotaOnlySpec _ _
      cpuQuotaOnly rfl rfl rfl rfl (Or.inl ⟨by decide, rfl⟩),
    by decide,
    C6_quota_period_both_required.2 quotaOnlyContainerDoc quotaOnlySpec _ _
      cpuQuotaOnly rfl rfl rfl rfl (Or.inl ⟨by decide, rfl⟩)⟩

/-- C7: the extractor is total and never signals an error: a document
with no spec yields the all-unset record from both extraction functions,
and a document whose five scanned annotation values all fail to parse
(with no Linux section) also yields the all-unset record rather than an
error. -/
theorem C7_extractor_total_never_errors :
    (∀ d : SandboxData, d.spec = none →
      ResourceInfo.from_sandbox_data d = ResourceInfo.default) ∧
    (∀ c : ContainerData, c.spec = none →
      ResourceInfo.from_container_data c = ResourceInfo.default) ∧
    ResourceInfo.from_sandbox_data malformedDoc = ResourceInfo.default := by
  refine ⟨?_, ?_, by decide⟩
  · intro d hd
    unfold ResourceInfo.from_sandbox_data
    rw [hd]
  · intro c hc
    unfold ResourceInfo.from_container_data
    rw [hc]

/-- C7 witness: both extraction functions on the empty document. -/
theorem C7_witness :
    ResourceInfo.from_sandbox_data { spec := none } = ResourceInfo.default ∧
    ResourceInfo.from_container_data { spec := none } = ResourceInfo.default :=
  ⟨C7_extractor_total_never_errors.1 { spec := none } rfl,
    C7_extractor_total_never_errors.2.1 { spec := none } rfl⟩

/-- C8: whenever the Linux-resources substructure contains a pids
section, both extraction functions set `pid_limit` to the pids limit
cast to `u32`, i.e. reduced mod `2^32` — so zero or negative limits
still populate the field. -/
theorem C8_pids_always_sets_pid_limit :
    (∀ (d : SandboxData) (spec : RuntimeSpec) (l : LinuxSection)
        (res : LinuxResources) (pd : LinuxPids),
      d.spec = some spec → spec.linux = some l → l.resources = some res →
      res.pids = some pd →
      (ResourceInfo.from_sandbox_data d).pid_limit =
        some ((pd.limit % (2 ^ 32 : ℤ)).toNat)) ∧
    (∀ (c : ContainerData) (spec : RuntimeSpec) (l : LinuxSection)
        (res : LinuxResources) (pd : LinuxPids),
      c.spec = some spec → spec.linux = some l → l.resources = some res →
      res.pids = some pd →
      (ResourceInfo.from_container_data c).pid_limit =
        some ((pd.limit % (2 ^ 32 : ℤ)).toNat)) := by
  constructor
  · intro d spec l res pd hd hl hres hpd
    rw [from_sandbox_data_some d spec hd]
    exact linuxStep_pid_limit_pids _ spec l res pd hl hres hpd
  · intro c spec l res pd hc hl hres hpd
    rw [from_container_data_some c spec hc]
    exact linuxStep_pid_limit_pids _ spec l res pd hl hres hpd

/-- C8 witness: a sandbox pids limit of `-1` yields
`pid_limit = 4294967295`, and a container pids limit of `0` yields
`pid_limit = 0` — both populated. -/
theorem C8_witness :
    (ResourceInfo.from_sandbox_data pidsNegDoc).pid_limit =
      some (((-1 : ℤ) % (2 ^ 32 : ℤ)).toNat) ∧
    ((-1 : ℤ) % (2 ^ 32 : ℤ)).toNat = 4294967295 ∧
    (ResourceInfo.from_container_data pidsZeroContainerDoc).pid_limit =
      some (((0 : ℤ) % (2 ^ 32 : ℤ)).toNat) ∧
    ((0 : ℤ) % (2 ^ 32 : ℤ)).toNat = 0 :=
  ⟨C8_pids_always_sets_pid_limit.1 pidsNegDoc _ _ _ { limit := -1 }
      rfl rfl rfl rfl,
    by decide,
    C8_pids_always_sets_pid_limit.2 pidsZeroContainerDoc _ _ _ { limit := 0 }
      rfl rfl rfl rfl,
    by decide⟩

/-- C1 counterexample: create `"s"`, start at time 1, start again at
time 2: `started_at` is `some 1` after the first start and `some 2`
after the second — it is re-recorded, not preserved. -/
theorem C1_counterexample :
    emptyRegistry.create "s" trivialOption = .ok reg1 ∧
    reg1.start "s" 1 = .ok reg2 ∧
    reg2.start "s" 2 = .ok reg3 ∧
    startedAtOf reg2 "s" = some (some 1) ∧
    startedAtOf reg3 "s" = some (some 2) ∧
    startedAtOf reg3 "s" ≠ startedAtOf reg2 "s" :=
  ⟨rfl, rfl, rfl, rfl, rfl, by decide⟩

/-- C1 (amended): every successful `start(id)` unconditionally records
`started_at` as the time of that call; a second start overwrites the
first timestamp with its own. -/
theorem C1_started_at_overwritten_on_restart
    (r : ResourceSlotSandboxer) (id : String) (s : ResourceSlotSandbox)
    (t1 t2 : Nat) (h : alookup r.sandboxes id = some s) :
    ∃ r1 r2, r.start id t1 = .ok r1 ∧ r1.start id t2 = .ok r2 ∧
      startedAtOf r1 id = some (some t1) ∧
      startedAtOf r2 id = some (some t2) := by
  refine ⟨r.putSandbox id { s with status := .Running 0, started_at := some t1 },
    _, start_ok r id s t1 h, start_ok _ id _ t2 (alookup_putSandbox_self r id _),
    ?_, ?_⟩
  · unfold startedAtOf
    rw [alookup_putSandbox_self]
    rfl
  · unfold startedAtOf
    rw [alookup_putSandbox_self]
    rfl

/-- C1 amended witness: the amended claim applied to `reg1` (which
holds the freshly created sandbox `"s"`) at times 1 and 2. -/
theorem C1_witness :
    ∃ r1 r2, reg1.start "s" 1 = .ok r1 ∧ r1.start "s" 2 = .ok r2 ∧
      startedAtOf r1 "s" = some (some 1) ∧
      startedAtOf r2 "s" = some (some 2) :=
  C1_started_at_overwritten_on_restart reg1 "s" _ 1 2 rfl

/-- C2 counterexample: `reg2` holds the sandbox `"s"` with status
`Running 0` and `started_at = some 1`; a second `create("s")` does not
fail with `AlreadyExists` — it succeeds and replaces the entry with a
fresh `Created` sandbox with `started_at = none`. -/
theorem C2_counterexample :
    (alookup reg2.sandboxes "s").isSome = true ∧
    reg2.create "s" trivialOption = .ok reg2dup ∧
    statusOf reg2 "s" = some (.Running 0) ∧
    statusOf reg2dup "s" = some .Created ∧
    startedAtOf reg2 "s" = some (some 1) ∧
    startedAtOf reg2dup "s" = some none ∧
    startedAtOf reg2dup "s" ≠ startedAtOf reg2 "s" :=
  ⟨rfl, rfl, rfl, rfl, rfl, rfl, by decide⟩

/-- C2 (amended): for every id already present in the registry,
`create(id, spec)` succeeds (it never reports `AlreadyExists`) and
silently replaces the existing entry wholesale with a fresh sandbox —
status `Created`, empty container map, unfired exit signal, no
`started_at`, data and resource info derived from the new option; all
other registry entries are unchanged. -/
theorem C2_duplicate_create_overwrites
    (r : ResourceSlotSandboxer) (id : String) (s : ResourceSlotSandbox)
    (opt : SandboxOption) (h : alookup r.sandboxes id = some s) :
    ∃ r2, r.create id opt = .ok r2 ∧
      alookup r2.sandboxes id = some
        { id := id, data := opt.sandbox, status := .Created,
          exit_signal := ExitSignal.default, containers := [],
          resource_info := ResourceInfo.from_sandbox_data opt.sandbox,
          started_at := none } ∧
      ∀ idq, idq ≠ id →
        alookup r2.sandboxes idq = alookup r.sandboxes idq := by
  refine ⟨_, rfl, alookup_ainsert_self r.sandboxes id _, ?_⟩
  intro idq hne
  exact alookup_ainsert_ne r.sandboxes id idq _ hne

/-- C2 amended witness: the duplicate `create("s")` against `reg2`. -/
theorem C2_witness :
    ∃ r2, reg2.create "s" trivialOption = .ok r2 ∧
      alookup r2.sandboxes "s" = some
        { id := "s", data := trivialOption.sandbox, status := .Created,
          exit_signal := ExitSignal.default, containers := [],
          resource_info := ResourceInfo.from_sandbox_data trivialOption.sandbox,
          started_at := none } ∧
      ∀ idq, idq ≠ "s" →
        alookup r2.sandboxes idq = alookup reg2.sandboxes idq :=
  C2_duplicate_create_overwrites reg2 "s" _ trivialOption rfl

/-- C5: stopping an existing sandbox whose exit signal has not yet fired
sets status `Stopped(0,0)` and fires the signal; a second stop leaves
the status `Stopped(0,0)` and leaves the signal state unchanged, so the
one-shot signal is observed as having fired exactly once (the
sandbox lock serialises concurrent stops into this sequential order). -/
theorem C5_stop_idempotent_signal_once
    (r : ResourceSlotSandboxer) (id : String) (s : ResourceSlotSandbox)
    (f1 f2 : Bool) (h : alookup r.sandboxes id = some s)
    (hfresh : s.exit_signal.fired = false) :
    ∃ r1 s1 r2 s2,
      r.stop id f1 = .ok r1 ∧ alookup r1.sandboxes id = some s1 ∧
      s1.status = .Stopped 0 0 ∧ s1.exit_signal.fired = true ∧
      r1.stop id f2 = .ok r2 ∧ alookup r2.sandboxes id = some s2 ∧
      s2.status = .Stopped 0 0 ∧ s2.exit_signal = s1.exit_signal := by
  refine ⟨_, _, _, _, stop_ok r id s f1 h, alookup_putSandbox_self r id _,
    rfl, rfl, stop_ok _ id _ f2 (alookup_putSandbox_self r id _),
    alookup_putSandbox_self _ id _, rfl, rfl⟩

/-- C5 witness: two consecutive stops of the running sandbox in `reg2`
(whose exit signal has not fired). -/
theorem C5_witness :
    ∃ r1 s1 r2 s2,
      reg2.stop "s" false = .ok r1 ∧ alookup r1.sandboxes "s" = some s1 ∧
      s1.status = .Stopped 0 0 ∧ s1.exit_signal.fired = true ∧
      r1.stop "s" false = .ok r2 ∧ alookup r2.sandboxes "s" = some s2 ∧
      s2.status = .Stopped 0 0 ∧ s2.exit_signal = s1.exit_signal :=
  C5_stop_idempotent_signal_once reg2 "s" _ false false rfl rfl

/-- C9: `update(id, new_spec)` on an existing sandbox replaces exactly
the stored document and the derived resource info; the id, status,
`started_at`, container map and exit signal are unchanged, as is every
other registry entry. -/
theorem C9_update_frame
    (r : ResourceSlotSandboxer) (id : String) (s : ResourceSlotSandbox)
    (nd : SandboxData) (h : alookup r.sandboxes id = some s) :
    ∃ r2 s2, r.update id nd = .ok r2 ∧ alookup r2.sandboxes id = some s2 ∧
      s2.data = nd ∧
      s2.resource_info = ResourceInfo.from_sandbox_data nd ∧
      s2.id = s.id ∧ s2.status = s.status ∧
      s2.started_at = s.started_at ∧ s2.containers = s.containers ∧
      s2.exit_signal = s.exit_signal ∧
      ∀ idq, idq ≠ id →
        alookup r2.sandboxes idq = alookup r.sandboxes idq := by
  refine ⟨_, _, update_ok r id s nd h, alookup_putSandbox_self r id _,
    rfl, rfl, rfl, rfl, rfl, rfl, rfl, ?_⟩
  intro idq hne
  exact alookup_putSandbox_ne r id idq _ hne

/-- C9 witness: updating the running sandbox in `reg2` with
`limPidAnnDoc`. -/
theorem C9_witness :
    ∃ r2 s2, reg2.update "s" limPidAnnDoc = .ok r2 ∧
      alookup r2.sandboxes "s" = some s2 ∧
      s2.data = limPidAnnDoc ∧
      s2.resource_info = ResourceInfo.from_sandbox_data limPidAnnDoc ∧
      s2.id = "s" ∧ s2.status = .Running 0 ∧
      s2.started_at = some 1 ∧ s2.containers = [] ∧
      s2.exit_signal = ExitSignal.default := by
  obtain ⟨r2, s2, h1, h2, h3, h4, h5, h6, h7, h8, h9, _⟩ :=
    C9_update_frame reg2 "s" _ limPidAnnDoc rfl
  exact ⟨r2, s2, h1, h2, h3, h4, h5, h6, h7, h8, h9⟩

/-- C10: lifecycle transitions are unguarded — on any existing sandbox,
whatever its current status, `start` succeeds and sets `Running(0)` and
`stop` succeeds and sets `Stopped(0,0)`. -/
theorem C10_lifecycle_unguarded
    (r : ResourceSlotSandboxer) (id : String) (s : ResourceSlotSandbox)
    (now : Nat) (force : Bool) (h : alookup r.sandboxes id = some s) :
    (∃ r1, r.start id now = .ok r1 ∧
      statusOf r1 id = some (.Running 0)) ∧
    (∃ r2, r.stop id force = .ok r2 ∧
      statusOf r2 id = some (.Stopped 0 0)) := by
  constructor
  · refine ⟨_, start_ok r id s now h, ?_⟩
    unfold statusOf
    rw [alookup_putSandbox_self]
    rfl
  · refine ⟨_, stop_ok r id s force h, ?_⟩
    unfold statusOf
    rw [alookup_putSandbox_self]
    rfl

/-- C10 witness: starting the stopped sandbox in `reg4` succeeds and
sets `Running(0)`; stopping the freshly created (never started) sandbox
in `reg1` succeeds and sets `Stopped(0,0)`. -/
theorem C10_witness :
    statusOf reg4 "s" = some (.Stopped 0 0) ∧
    (∃ r1, reg4.start "s" 7 = .ok r1 ∧
      statusOf r1 "s" = some (.Running 0)) ∧
    statusOf reg1 "s" = some .Created ∧
    (∃ r2, reg1.stop "s" false = .ok r2 ∧
      statusOf r2 "s" = some (.Stopped 0 0)) :=
  ⟨rfl, (C10_lifecycle_unguarded reg4 "s" _ 7 false rfl).1, rfl,
    (C10_lifecycle_unguarded reg1 "s" _ 0 false rfl).2⟩

end ResourceSlot
